import Mathlib

/-!
# Verification of the Salesforce OAuth proxy (`salesforce-proxy.js`)

A shallow embedding of the OAuth Authorization-Code core of the Express
proxy server: the token store, the session store, the callback handler,
the refresh handler, the status and logout handlers, and the
authenticated-request wrapper `makeAuthenticatedRequest`.

JavaScript values that the source code tests for truthiness
(`if (error)`, `if (!state)`, `if (!refreshToken)`,
`if (tokenData.refresh_token)`) are modelled as `Option String`, where
`none` stands for `undefined`/absent and `some ""` for the (falsy)
empty string; `truthy` is JS truthiness on such values.
-/

namespace SFProxy

/-- JS truthiness of an optional string: `undefined`/`null` and `""` are
falsy, every other string is truthy. -/
def truthy : Option String → Bool
  | none => false
  | some s => s ≠ ""

/-- `a || b` on an optional string with a string default, as JS computes
it: the left operand is taken when truthy, the default otherwise. -/
def jsOrStr (a : Option String) (d : String) : String :=
  match a with
  | none => d
  | some s => if s = "" then d else s

/-- The process-wide token store of `salesforce-proxy.js`
(`let accessToken / instanceUrl / refreshToken`, lines 47-49).
`none` stands for JS `null`/`undefined`. -/
structure TokenRecord where
  accessToken : Option String
  refreshToken : Option String
  instanceUrl : Option String
  deriving Repr, DecidableEq

/-- The initial token store: all three variables start as `null`. -/
def TokenRecord.initial : TokenRecord := ⟨none, none, none⟩

/-- The per-browser session fields used by the OAuth flow
(`req.session.oauthState`, `req.session.codeVerifier`). -/
structure OAuthSession where
  oauthState : Option String
  codeVerifier : Option String
  deriving Repr, DecidableEq

/-- The query parameters of a callback request
(`const { code, state, error } = req.query`). -/
structure CallbackQuery where
  code : Option String
  state : Option String
  error : Option String
  deriving Repr, DecidableEq

/-- The JSON body returned by the provider's token endpoint, as the
fields the proxy reads from `tokenData`, together with `ok`
(`response.ok`, i.e. HTTP status in 200-299). -/
structure TokenResponse where
  ok : Bool
  access_token : Option String
  refresh_token : Option String
  instance_url : Option String
  expires_in : Option Nat
  error_description : Option String
  deriving Repr, DecidableEq

/-- Uppercase hexadecimal digit, for percent-encoding. -/
def hexDigit (n : Nat) : Char :=
  if n < 10 then Char.ofNat (48 + n) else Char.ofNat (55 + n)

/-- The UTF-8 bytes of a code point, as natural numbers. -/
def utf8Bytes (n : Nat) : List Nat :=
  if n < 0x80 then [n]
  else if n < 0x800 then [0xC0 + n / 64, 0x80 + n % 64]
  else if n < 0x10000 then
    [0xE0 + n / 4096, 0x80 + (n / 64) % 64, 0x80 + n % 64]
  else
    [0xF0 + n / 262144, 0x80 + (n / 4096) % 64, 0x80 + (n / 64) % 64,
     0x80 + n % 64]

/-- The characters `encodeURIComponent` leaves unescaped:
`A-Z a-z 0-9 - _ . ! ~ * ' ( )`. -/
def uriUnreserved (c : Char) : Bool :=
  c.isAlpha || c.isDigit ||
    c ∈ ['-', '_', '.', '!', '~', '*', Char.ofNat 39, '(', ')']

/-- JavaScript's `encodeURIComponent`: unreserved characters pass
through, every other character becomes percent-encoded UTF-8 bytes. -/
def encodeURIComponent (s : String) : String :=
  String.join <| s.data.map fun c =>
    if uriUnreserved c then String.singleton c
    else String.join <| (utf8Bytes c.toNat).map fun b =>
      ⟨['%', hexDigit (b / 16), hexDigit (b % 16)]⟩

/-- Everything observable about one run of the callback handler
(`GET /api/sf/auth/callback`): the redirect target sent to the browser,
the session and token store after the run, and how many POSTs to the
provider's token endpoint were issued. -/
structure CallbackResult where
  redirect : String
  session : OAuthSession
  tokens : TokenRecord
  tokenPosts : Nat
  deriving Repr, DecidableEq

/-- The callback handler of `salesforce-proxy.js` (lines 202-305).
`provider` is the token endpoint's reply, consumed only if the handler
reaches the exchange POST.

Control flow of the source: if `error` is truthy, redirect with the
error; if `state` is falsy or differs from `req.session.oauthState`,
redirect with `invalid_state`; otherwise delete `oauthState` and
`codeVerifier` from the session, POST the code exchange, and on
`response.ok` overwrite the three token variables from `tokenData`,
else redirect with `error_description || 'Token exchange failed'`. -/
def callback (q : CallbackQuery) (sess : OAuthSession) (tok : TokenRecord)
    (provider : TokenResponse) : CallbackResult :=
  if truthy q.error then
    { redirect := "/?error=" ++ encodeURIComponent (jsOrStr q.error "")
      session := sess, tokens := tok, tokenPosts := 0 }
  else if !truthy q.state || q.state ≠ sess.oauthState then
    { redirect := "/?error=invalid_state"
      session := sess, tokens := tok, tokenPosts := 0 }
  else
    let sess' : OAuthSession := ⟨none, none⟩
    if provider.ok then
      { redirect := "/?auth=success"
        session := sess'
        tokens :=
          { accessToken := provider.access_token
            refreshToken := provider.refresh_token
            instanceUrl := provider.instance_url }
        tokenPosts := 1 }
    else
      { redirect := "/?error=" ++
          encodeURIComponent
            (jsOrStr provider.error_description "Token exchange failed")
        session := sess', tokens := tok, tokenPosts := 1 }

/-- A JSON body of the shape the auth endpoints respond with:
`{success, error?, message?}`. -/
structure AuthBody where
  success : Bool
  error : Option String
  message : Option String
  deriving Repr, DecidableEq

/-- Everything observable about one run of the refresh handler
(`POST /api/sf/auth/refresh`): HTTP status, JSON body, the token store
after the run, and the number of POSTs to the token endpoint. -/
structure RefreshResult where
  status : Nat
  body : AuthBody
  tokens : TokenRecord
  tokenPosts : Nat
  deriving Repr, DecidableEq

/-- The refresh handler of `salesforce-proxy.js` (lines 308-389).

Control flow of the source: if `refreshToken` is falsy, answer
`401 {success:false, error:'No refresh token available'}` with no
network call; otherwise POST the refresh grant, and on `response.ok`
overwrite `accessToken` and overwrite `refreshToken` only when
`tokenData.refresh_token` is truthy; on failure answer
`400 {success:false, error: error_description || 'Token refresh failed'}`
leaving the store untouched. -/
def refresh (tok : TokenRecord) (provider : TokenResponse) : RefreshResult :=
  if !truthy tok.refreshToken then
    { status := 401
      body := ⟨false, some "No refresh token available", none⟩
      tokens := tok, tokenPosts := 0 }
  else if provider.ok then
    { status := 200
      body := ⟨true, none, some "Token refreshed successfully"⟩
      tokens :=
        { accessToken := provider.access_token
          refreshToken :=
            if truthy provider.refresh_token then provider.refresh_token
            else tok.refreshToken
          instanceUrl := tok.instanceUrl }
      tokenPosts := 1 }
  else
    { status := 400
      body := ⟨false,
        some (jsOrStr provider.error_description "Token refresh failed"),
        none⟩
      tokens := tok, tokenPosts := 1 }

/-- The body of `GET /api/sf/auth/status`. -/
structure StatusBody where
  authenticated : Bool
  hasRefreshToken : Bool
  instanceUrl : Option String
  deriving Repr, DecidableEq

/-- The status handler (lines 392-398): a pure read of the token store,
`{authenticated: !!accessToken, hasRefreshToken: !!refreshToken,
instanceUrl}`. -/
def status (tok : TokenRecord) : StatusBody :=
  ⟨truthy tok.accessToken, truthy tok.refreshToken, tok.instanceUrl⟩

/-- Everything observable about one run of the logout handler. -/
structure LogoutResult where
  httpStatus : Nat
  body : AuthBody
  tokens : TokenRecord
  networkCalls : Nat
  deriving Repr, DecidableEq

/-- The logout handler (lines 401-412): sets the three token variables
to `null` and answers `200 {success:true, message:'Logged out
successfully'}`; it performs no network call. -/
def logout (_tok : TokenRecord) : LogoutResult :=
  { httpStatus := 200
    body := ⟨true, none, some "Logged out successfully"⟩
    tokens := ⟨none, none, none⟩
    networkCalls := 0 }

/-- A JSON value, for the parsed bodies `makeAuthenticatedRequest`
inspects (`data?.[0]?.message`, `data?.message`, `data?.rawResponse`). -/
inductive JVal where
  | null : JVal
  | bool (b : Bool) : JVal
  | num (n : Int) : JVal
  | str (s : String) : JVal
  | arr (xs : List JVal) : JVal
  | obj (fields : List (String × JVal)) : JVal
  deriving Repr

/-- JS property access `v?.k` on a JSON value: only objects yield their
field, everything else gives `undefined`. -/
def JVal.get (j : JVal) (k : String) : Option JVal :=
  match j with
  | .obj fields => (fields.find? fun p => p.1 = k).map Prod.snd
  | _ => none

/-- JS `v?.[0]`: element 0 of an array, field `"0"` of an object, the
first character of a string; `undefined` otherwise. -/
def JVal.index0 (j : JVal) : Option JVal :=
  match j with
  | .arr (x :: _) => some x
  | .arr [] => none
  | .obj fields => (fields.find? fun p => p.1 = "0").map Prod.snd
  | .str s =>
    match s.data with
    | [] => none
    | c :: _ => some (.str (String.singleton c))
  | _ => none

/-- JS truthiness of a JSON value. -/
def JVal.truthy : JVal → Bool
  | .null => false
  | .bool b => b
  | .num n => n ≠ 0
  | .str s => s ≠ ""
  | .arr _ => true
  | .obj _ => true

mutual
/-- JS `String(v)` on a JSON value, as used when a non-string lands in
`new Error(errorMessage)`. -/
def JVal.render : JVal → String
  | .null => "null"
  | .bool b => if b then "true" else "false"
  | .num n => toString n
  | .str s => s
  | .arr xs => String.intercalate "," (JVal.renderElems xs)
  | .obj _ => "[object Object]"

/-- Array elements under JS `Array.prototype.toString`: `null` renders
empty inside an array. -/
def JVal.renderElems : List JVal → List String
  | [] => []
  | .null :: rest => "" :: JVal.renderElems rest
  | x :: rest => JVal.render x :: JVal.renderElems rest
end

/-- An HTTP response as `makeAuthenticatedRequest` observes it:
`status`, `statusText`, the body text, and the verdict of `JSON.parse`
on that text (`none` when the parse throws). -/
structure HttpResponse where
  httpStatus : Nat
  statusText : String
  bodyText : String
  bodyJson : Option JVal
  deriving Repr

/-- `response.ok` of the Fetch API: status in 200-299. -/
def HttpResponse.ok (r : HttpResponse) : Bool :=
  200 ≤ r.httpStatus && r.httpStatus < 300

/-- The `data` variable of `makeAuthenticatedRequest` after body
handling: `null` when the body text trims to empty
(`responseText.trim().length > 0` holds exactly when some character is
not whitespace), else the parsed JSON, else the wrapper object
`{rawResponse: responseText}`. -/
def responseData (r : HttpResponse) : Option JVal :=
  if r.bodyText.data.any fun c => !c.isWhitespace then
    match r.bodyJson with
    | some j => some j
    | none => some (.obj [("rawResponse", .str r.bodyText)])
  else
    none

/-- One step of the optional chain `base?.k`. -/
def optGet (base : Option JVal) (k : String) : Option JVal :=
  base.bind fun j => j.get k

/-- The error message the wrapper throws on a non-ok response:
`data?.[0]?.message || data?.message || data?.rawResponse ||
`HTTP ${status}: ${statusText}``, with JS truthiness deciding which
operand survives. -/
def marErrorMessage (r : HttpResponse) : String :=
  let data := responseData r
  let cands := [optGet (data.bind JVal.index0) "message",
                optGet data "message",
                optGet data "rawResponse"]
  match cands.find? fun c => match c with
      | some j => j.truthy
      | none => false with
  | some (some j) => j.render
  | _ => "HTTP " ++ toString r.httpStatus ++ ": " ++ r.statusText

/-- The outcome of a `makeAuthenticatedRequest` call. -/
inductive MAROutcome where
  /-- Threw `'Not authenticated with Salesforce'` before any fetch. -/
  | notAuthenticated : MAROutcome
  /-- The fetch itself rejected (no response available in the trace). -/
  | networkError : MAROutcome
  /-- Threw `new Error(errorMessage)` on a non-ok response. -/
  | threw (msg : String) : MAROutcome
  /-- Returned `{response, data}`. -/
  | success (resp : HttpResponse) (data : Option JVal) : MAROutcome
  deriving Repr

/-- What one call of `makeAuthenticatedRequest` did: its outcome, how
many HTTP requests it issued, and how many token-refresh calls it
made. -/
structure MARRun where
  outcome : MAROutcome
  requestsIssued : Nat
  refreshCalls : Nat
  deriving Repr

/-- `makeAuthenticatedRequest` of `salesforce-proxy.js` (lines 419-455),
run against a trace of provider responses (each fetch consumes the head
of the trace).

Control flow of the source: if `accessToken` is falsy, throw
`'Not authenticated with Salesforce'` with no fetch; otherwise issue
the single fetch, read the body as text, parse it, and either return
`{response, data}` when `response.ok` or throw `new Error(errorMessage)`.
The function contains no refresh call and no retry. -/
def makeAuthenticatedRequest (tok : TokenRecord)
    (trace : List HttpResponse) : MARRun :=
  if !truthy tok.accessToken then
    { outcome := .notAuthenticated, requestsIssued := 0, refreshCalls := 0 }
  else
    match trace with
    | [] => { outcome := .networkError, requestsIssued := 1, refreshCalls := 0 }
    | r :: _ =>
      if r.ok then
        { outcome := .success r (responseData r)
          requestsIssued := 1, refreshCalls := 0 }
      else
        { outcome := .threw (marErrorMessage r)
          requestsIssued := 1, refreshCalls := 0 }

/-! ## Spec-side definitions for the refinement comparison

The specification's data model (§3) gives `TokenRecord` a fourth field
`expiresAt`, and §4.2 computes it on callback success. The source file
`salesforce-proxy.js` has no such variable, so the spec's version is
written out separately here to compare the two. -/

/-- Modelled from the spec: the spec's `TokenRecord` (§3), whose
`expiresAt : timestamp | null` field is absent from
`salesforce-proxy.js`. -/
structure SpecTokenRecord where
  accessToken : Option String
  refreshToken : Option String
  instanceUrl : Option String
  expiresAt : Option Nat
  deriving Repr, DecidableEq

/-- Modelled from the spec: the token overwrite the spec prescribes for
a successful callback (§4.2), with the expiry "computed as
`now + expires_in` (seconds→ms)". -/
def specCallbackTokenUpdate (now : Nat) (r : TokenResponse) : SpecTokenRecord :=
  { accessToken := r.access_token
    refreshToken := r.refresh_token
    instanceUrl := r.instance_url
    expiresAt := r.expires_in.map fun e => now + e * 1000 }

/-! ## Concrete fixtures used by counterexamples and witnesses -/

/-- A successful token-endpoint reply (Scenario C of the spec). -/
def sampleOk : TokenResponse :=
  ⟨true, some "T1", some "R1", some "https://org.example.com", some 3600, none⟩

/-- A failing token-endpoint reply carrying an `error_description`. -/
def sampleFail : TokenResponse :=
  ⟨false, none, none, none, none, some "expired access/refresh token"⟩

/-- A fully populated token store. -/
def sampleTokens : TokenRecord :=
  ⟨some "T0", some "R0", some "https://org.example.com"⟩

/-- A session holding state `Y` and a code verifier, as left by login. -/
def sampleSession : OAuthSession := ⟨some "Y", some "V"⟩

/-- A callback query whose `state` matches `sampleSession`. -/
def matchingQuery : CallbackQuery := ⟨some "abc", some "Y", none⟩

/-- A 401 provider response with an empty body. -/
def resp401 : HttpResponse := ⟨401, "Unauthorized", "", none⟩

/-- A 200 provider response with a small JSON body. -/
def resp200 : HttpResponse :=
  ⟨200, "OK", "\x7b\"done\":true\x7d", some (.obj [("done", .bool true)])⟩

/-! ## Claim theorems -/

/-- C5: for every successful token refresh, `accessToken` is overwritten
with the response's access token; when the response omits
`refresh_token` the previously stored refresh token is left unchanged,
and when the response includes a (nonempty) `refresh_token` the stored
one is replaced by it. -/
theorem refresh_preserves_unrotated_token (tok : TokenRecord)
    (p : TokenResponse) (hrt : truthy tok.refreshToken = true)
    (hok : p.ok = true) :
    (refresh tok p).tokens.accessToken = p.access_token ∧
    (p.refresh_token = none →
      (refresh tok p).tokens.refreshToken = tok.refreshToken) ∧
    (∀ s : String, s ≠ "" → p.refresh_token = some s →
      (refresh tok p).tokens.refreshToken = some s) := by
  unfold refresh
  rw [hrt, hok]
  simp only [Bool.not_true, Bool.false_eq_true, if_false, if_true]
  refine ⟨trivial, ?_, ?_⟩
  · intro h
    simp [h, truthy]
  · intro s hs hp
    simp [hp, truthy, hs]

/-- Witness for C5: refreshing `sampleTokens` with a response carrying
only a new access token keeps `R0` and installs `T2`. -/
theorem refresh_preserves_unrotated_token_witness :
    truthy sampleTokens.refreshToken = true ∧
    (⟨true, some "T2", none, none, none, none⟩ : TokenResponse).ok = true ∧
    (refresh sampleTokens
      ⟨true, some "T2", none, none, none, none⟩).tokens.refreshToken =
      sampleTokens.refreshToken ∧
    (refresh sampleTokens
      ⟨true, some "T2", none, none, none, none⟩).tokens.accessToken =
      some "T2" :=
  ⟨by decide, by decide,
   (refresh_preserves_unrotated_token sampleTokens
     ⟨true, some "T2", none, none, none, none⟩
     (by decide) (by decide)).2.1 rfl,
   (refresh_preserves_unrotated_token sampleTokens
     ⟨true, some "T2", none, none, none, none⟩
     (by decide) (by decide)).1⟩

/-- C6 counterexample: with no stored refresh token the handler answers
HTTP 401 with zero token POSTs, but its body is
`{success:false, error:'No refresh token available'}` — the error field
carries that message string, not the code `"NO_REFRESH_TOKEN"`, and the
body has no code field. -/
theorem refresh_no_token_message_not_code :
    (refresh ⟨some "T0", none, some "https://org.example.com"⟩
      sampleOk).status = 401 ∧
    (refresh ⟨some "T0", none, some "https://org.example.com"⟩
      sampleOk).body = ⟨false, some "No refresh token available", none⟩ ∧
    (refresh ⟨some "T0", none, some "https://org.example.com"⟩
      sampleOk).tokenPosts = 0 ∧
    ("No refresh token available" : String) ≠ "NO_REFRESH_TOKEN" :=
  ⟨rfl, rfl, rfl, by decide⟩

/-- C6 (amended): whenever the stored `refreshToken` is falsy, refresh
fails immediately with HTTP 401 and body
`{success:false, error:'No refresh token available'}`, makes zero
network calls, and leaves the token store unchanged. -/
theorem refresh_without_token_fails_fast (tok : TokenRecord)
    (p : TokenResponse) (h : truthy tok.refreshToken = false) :
    refresh tok p =
      ⟨401, ⟨false, some "No refresh token available", none⟩, tok, 0⟩ := by
  simp [refresh, h]

/-- Witness for C6 (amended), at a store holding an access token but no
refresh token. -/
theorem refresh_without_token_fails_fast_witness :
    truthy (⟨some "T0", none, some "https://org.example.com"⟩ :
      TokenRecord).refreshToken = false ∧
    refresh ⟨some "T0", none, some "https://org.example.com"⟩ sampleOk =
      ⟨401, ⟨false, some "No refresh token available", none⟩,
        ⟨some "T0", none, some "https://org.example.com"⟩, 0⟩ :=
  ⟨by decide,
   refresh_without_token_fails_fast
     ⟨some "T0", none, some "https://org.example.com"⟩ sampleOk (by decide)⟩

/-- C7: for every refresh attempt answered non-2xx by the provider, the
handler surfaces `error_description || 'Token refresh failed'` with
HTTP 400 and the whole token store is left unchanged. -/
theorem refresh_failure_preserves_tokens (tok : TokenRecord)
    (p : TokenResponse) (hrt : truthy tok.refreshToken = true)
    (hfail : p.ok = false) :
    refresh tok p =
      ⟨400,
       ⟨false, some (jsOrStr p.error_description "Token refresh failed"),
        none⟩,
       tok, 1⟩ := by
  simp [refresh, hrt, hfail]

/-- Witness for C7: a failing refresh with an `error_description`
surfaces it and keeps `sampleTokens` intact. -/
theorem refresh_failure_preserves_tokens_witness :
    truthy sampleTokens.refreshToken = true ∧ sampleFail.ok = false ∧
    refresh sampleTokens sampleFail =
      ⟨400, ⟨false, some "expired access/refresh token", none⟩,
        sampleTokens, 1⟩ :=
  ⟨by decide, by decide,
   (refresh_failure_preserves_tokens sampleTokens sampleFail
     (by decide) (by decide)).trans (by decide)⟩

/-- C8: after logout every token field is null, logout itself made no
network call, status then reports `authenticated:false`, and a call
through `makeAuthenticatedRequest` fails with the not-authenticated
error having issued zero requests and zero refresh calls, whatever the
network would have answered. -/
theorem logout_clears_everything (tok : TokenRecord)
    (trace : List HttpResponse) :
    (logout tok).tokens = ⟨none, none, none⟩ ∧
    (logout tok).networkCalls = 0 ∧
    status (logout tok).tokens = ⟨false, false, none⟩ ∧
    makeAuthenticatedRequest (logout tok).tokens trace =
      ⟨.notAuthenticated, 0, 0⟩ :=
  ⟨rfl, rfl, rfl, rfl⟩

/-- C10: logout answers `200 {success:true}` from every state (the
empty store included), and a second logout yields exactly the same
state and response as the first. -/
theorem logout_total_idempotent (tok : TokenRecord) :
    (logout tok).httpStatus = 200 ∧
    (logout tok).body = ⟨true, none, some "Logged out successfully"⟩ ∧
    (logout tok).tokens = ⟨none, none, none⟩ ∧
    logout ((logout tok).tokens) = logout tok ∧
    logout TokenRecord.initial = logout tok :=
  ⟨rfl, rfl, rfl, rfl, rfl⟩

/-- C2 counterexample: a callback failing the state check (session
state `Y`, query state `X`) leaves `oauthState` and `codeVerifier` in
the session, so the session is not consumed on that failure — a second
callback still finds both. -/
theorem callback_invalid_state_keeps_session :
    (callback ⟨some "abc", some "X", none⟩ ⟨some "Y", some "V"⟩
      TokenRecord.initial sampleOk).redirect = "/?error=invalid_state" ∧
    (callback ⟨some "abc", some "X", none⟩ ⟨some "Y", some "V"⟩
      TokenRecord.initial sampleOk).session = ⟨some "Y", some "V"⟩ :=
  ⟨rfl, rfl⟩

/-- C2 (amended): the callback deletes the session's `oauthState` and
`codeVerifier` exactly when it passes the error- and state-checks
(whether the exchange then succeeds or fails); on the error-param and
invalid-state paths the session is left unchanged. -/
theorem callback_session_consumption (q : CallbackQuery)
    (sess : OAuthSession) (tok : TokenRecord) (p : TokenResponse) :
    (callback q sess tok p).session =
      if truthy q.error = false ∧ truthy q.state = true ∧
          q.state = sess.oauthState
      then ⟨none, none⟩ else sess := by
  unfold callback
  rcases he : truthy q.error with _ | _
  · rcases hs : truthy q.state with _ | _
    · simp [hs]
    · rcases hm : decide (q.state = sess.oauthState) with _ | _
      · have : q.state ≠ sess.oauthState := of_decide_eq_false hm
        simp [hs, this]
      · have : q.state = sess.oauthState := of_decide_eq_true hm
        simp [hs, this]
        split <;> rfl
  · simp

/-- C3 counterexample: two successful token responses that differ only
in `expires_in` (3600 s vs 7200 s) produce byte-identical callback
results — the code stores no expiry at all — while the spec's
prescribed update (`specCallbackTokenUpdate`) distinguishes them. -/
theorem callback_ignores_expires_in :
    callback matchingQuery sampleSession TokenRecord.initial sampleOk =
      callback matchingQuery sampleSession TokenRecord.initial
        { sampleOk with expires_in := some 7200 } ∧
    specCallbackTokenUpdate 0 sampleOk ≠
      specCallbackTokenUpdate 0 { sampleOk with expires_in := some 7200 } :=
  ⟨rfl, by decide⟩

/-- C3 (amended): a successful exchange overwrites `accessToken`,
`refreshToken` and `instanceUrl` with the response's values; no expiry
is stored — the entire callback result is independent of
`expires_in`. -/
theorem callback_success_overwrites_tokens (q : CallbackQuery)
    (sess : OAuthSession) (tok : TokenRecord) (p : TokenResponse)
    (herr : truthy q.error = false) (hs : truthy q.state = true)
    (hm : q.state = sess.oauthState) (hok : p.ok = true) :
    (callback q sess tok p).tokens =
      ⟨p.access_token, p.refresh_token, p.instance_url⟩ ∧
    (∀ e, callback q sess tok { p with expires_in := e } =
      callback q sess tok p) := by
  constructor
  · unfold callback
    rw [herr, hs, hm, hok]
    simp
  · intro e
    unfold callback
    rfl

/-- Witness for C3 (amended), at Scenario C's inputs. -/
theorem callback_success_overwrites_tokens_witness :
    truthy matchingQuery.error = false ∧
    truthy matchingQuery.state = true ∧
    matchingQuery.state = sampleSession.oauthState ∧
    sampleOk.ok = true ∧
    (callback matchingQuery sampleSession TokenRecord.initial
      sampleOk).tokens =
      ⟨some "T1", some "R1", some "https://org.example.com"⟩ :=
  ⟨by decide, by decide, by decide, by decide,
   (callback_success_overwrites_tokens matchingQuery sampleSession
     TokenRecord.initial sampleOk
     (by decide) (by decide) (by decide) (by decide)).1.trans (by decide)⟩

/-- C4 counterexample: a callback whose `state` (`X`) differs from the
session's stored state (`Y`) but which also carries an `error`
parameter redirects with that error, not with `invalid_state` — the
error branch runs before the state check. -/
theorem callback_error_param_beats_state_check :
    (⟨some "abc", some "X", some "access_denied"⟩ :
      CallbackQuery).state ≠
      (⟨some "Y", some "V"⟩ : OAuthSession).oauthState ∧
    (callback ⟨some "abc", some "X", some "access_denied"⟩
      ⟨some "Y", some "V"⟩ sampleTokens sampleOk).redirect =
      "/?error=access_denied" ∧
    ("/?error=access_denied" : String) ≠ "/?error=invalid_state" :=
  ⟨by decide, rfl, by decide⟩

/-- C4 (amended): for every callback without a (truthy) `error`
parameter whose `state` is missing or differs from the session's stored
state, the handler redirects to `/?error=invalid_state`, issues no
token POST, and leaves both the token store and the session
unchanged. -/
theorem callback_invalid_state_no_exchange (q : CallbackQuery)
    (sess : OAuthSession) (tok : TokenRecord) (p : TokenResponse)
    (herr : truthy q.error = false)
    (hstate : truthy q.state = false ∨ q.state ≠ sess.oauthState) :
    callback q sess tok p =
      ⟨"/?error=invalid_state", sess, tok, 0⟩ := by
  unfold callback
  rw [herr]
  rcases hstate with h | h
  · simp [h]
  · simp [h]

/-- Witness for C4 (amended): Scenario B's inputs (query state `X`,
session state `Y`). -/
theorem callback_invalid_state_no_exchange_witness :
    truthy (⟨some "abc", some "X", none⟩ : CallbackQuery).error = false ∧
    ((⟨some "abc", some "X", none⟩ : CallbackQuery).state ≠
      (⟨some "Y", some "V"⟩ : OAuthSession).oauthState) ∧
    callback ⟨some "abc", some "X", none⟩ ⟨some "Y", some "V"⟩
      sampleTokens sampleOk =
      ⟨"/?error=invalid_state", ⟨some "Y", some "V"⟩, sampleTokens, 0⟩ :=
  ⟨by decide, by decide,
   callback_invalid_state_no_exchange ⟨some "abc", some "X", none⟩
     ⟨some "Y", some "V"⟩ sampleTokens sampleOk (by decide)
     (Or.inr (by decide))⟩

/-- C9: a successful callback whose token response omits
`refresh_token` leaves the store with no refresh token (status then
reports `hasRefreshToken:false` and a refresh attempt fails without a
network call, so a later 401 cannot self-heal), whereas the refresh
handler in the same situation preserves the previously stored refresh
token. -/
theorem callback_drops_refresh_token_refresh_keeps_it (q : CallbackQuery)
    (sess : OAuthSession) (tok : TokenRecord) (p p2 rp : TokenResponse)
    (herr : truthy q.error = false) (hs : truthy q.state = true)
    (hm : q.state = sess.oauthState) (hok : p.ok = true)
    (hnort : p.refresh_token = none) (hrt : truthy tok.refreshToken = true)
    (hok2 : p2.ok = true) (hnort2 : p2.refresh_token = none) :
    (callback q sess tok p).tokens.refreshToken = none ∧
    (status (callback q sess tok p).tokens).hasRefreshToken = false ∧
    refresh (callback q sess tok p).tokens rp =
      ⟨401, ⟨false, some "No refresh token available", none⟩,
        (callback q sess tok p).tokens, 0⟩ ∧
    (refresh tok p2).tokens.refreshToken = tok.refreshToken := by
  have hcb : (callback q sess tok p).tokens =
      ⟨p.access_token, p.refresh_token, p.instance_url⟩ := by
    unfold callback
    rw [herr, hs, hm, hok]
    simp
  refine ⟨?_, ?_, ?_, ?_⟩
  · rw [hcb, hnort]
  · rw [hcb]
    simp [status, hnort, truthy]
  · have h0 : truthy (callback q sess tok p).tokens.refreshToken = false := by
      rw [hcb, hnort]
      rfl
    simp [refresh, h0]
  · unfold refresh
    rw [hrt, hok2]
    simp [hnort2, truthy]

/-- Witness for C9: a callback with a response carrying only an access
token wipes the refresh token `R0` that a refresh with the same kind of
response would have preserved. -/
theorem callback_drops_refresh_token_witness :
    (callback matchingQuery sampleSession sampleTokens
      ⟨true, some "T2", none, some "https://org.example.com", some 3600,
        none⟩).tokens.refreshToken = none ∧
    (refresh sampleTokens
      ⟨true, some "T2", none, some "https://org.example.com", some 3600,
        none⟩).tokens.refreshToken = sampleTokens.refreshToken :=
  ⟨(callback_drops_refresh_token_refresh_keeps_it matchingQuery
      sampleSession sampleTokens
      ⟨true, some "T2", none, some "https://org.example.com", some 3600,
        none⟩
      ⟨true, some "T2", none, some "https://org.example.com", some 3600,
        none⟩
      sampleOk
      (by decide) (by decide) (by decide) (by decide) rfl (by decide)
      (by decide) rfl).1,
   (callback_drops_refresh_token_refresh_keeps_it matchingQuery
      sampleSession sampleTokens
      ⟨true, some "T2", none, some "https://org.example.com", some 3600,
        none⟩
      ⟨true, some "T2", none, some "https://org.example.com", some 3600,
        none⟩
      sampleOk
      (by decide) (by decide) (by decide) (by decide) rfl (by decide)
      (by decide) rfl).2.2.2⟩

/-- C1 counterexample: with an access token and a valid refresh token
stored, a request whose provider would answer 401 and then 200 on a
retry does not succeed — the wrapper throws `HTTP 401: Unauthorized`
after a single request, performing zero refresh calls and never
touching the second response. -/
theorem mar_401_then_200_fails :
    truthy sampleTokens.accessToken = true ∧
    truthy sampleTokens.refreshToken = true ∧
    makeAuthenticatedRequest sampleTokens [resp401, resp200] =
      ⟨.threw (marErrorMessage resp401), 1, 0⟩ ∧
    marErrorMessage resp401 = "HTTP 401: Unauthorized" :=
  ⟨rfl, rfl, rfl, by decide⟩

/-- C1 (amended): `makeAuthenticatedRequest` performs no refresh and no
retry: whenever an access token is stored, it issues exactly one
request and zero refresh calls, succeeds precisely when that single
response is 2xx, and on any non-2xx response — 401 included — throws
the constructed error message; the rest of the trace is never
consumed. -/
theorem mar_single_request_no_refresh (tok : TokenRecord)
    (r : HttpResponse) (rest : List HttpResponse)
    (hauth : truthy tok.accessToken = true) :
    makeAuthenticatedRequest tok (r :: rest) =
      ⟨if r.ok then .success r (responseData r)
        else .threw (marErrorMessage r), 1, 0⟩ := by
  unfold makeAuthenticatedRequest
  rw [hauth]
  simp only [Bool.not_true, Bool.false_eq_true, if_false]
  split <;> rfl

/-- Witness for C1 (amended): on a 200 response the wrapper succeeds
with one request and zero refresh calls, and a longer trace behind it
changes nothing. -/
theorem mar_single_request_no_refresh_witness :
    truthy sampleTokens.accessToken = true ∧
    makeAuthenticatedRequest sampleTokens [resp200, resp401] =
      ⟨if resp200.ok then .success resp200 (responseData resp200)
        else .threw (marErrorMessage resp200), 1, 0⟩ :=
  ⟨by decide,
   mar_single_request_no_refresh sampleTokens resp200 [resp401]
     (by decide)⟩

end SFProxy
